import Mathlib

/-!
Shallow embedding of `pygobject_templatemeta` (files `template.py` and
`meta.py`) and proofs about its template parser and binder.

Modelling conventions:
* XML documents (lxml `_Element`) are the inductive `XMLElement` below:
  a tag, an attribute list and a list of child elements.  `element.get`
  is attribute lookup, `tree.findall('.//tag')` is a preorder walk over
  the proper descendants (the ElementPath `.//` axis never matches the
  root element itself).
* Python `dict`s are association lists `List (k × v)` manipulated with
  `dinsert` (insert-or-overwrite keeping the original position, which is
  exactly Python's insertion-ordered `dict` update) and `dlookup`.
* Python exceptions become the `Except` monad with the `PyError` type
  mirroring the exception classes the code raises (`KeyError`,
  `AttributeError`, `RuntimeError`, `ValueError`, and the `TypeError`
  that `setattr` raises on a non-string attribute name).
* The live GObject type registry (`GObject.type_from_name`) is a
  parameter `registry : String → Option GType`; a `GType`'s associated
  Python type (`.pytype`) is an `Option String` naming the Python class,
  and a `GType` is rendered in error messages by its name.
* Attribute values coming from XML are strings.  Dataclass fields whose
  Python default is `None` or `False` are `Option String` where `none`
  stands for the default (the code never converts the XML string to a
  boolean, it stores the raw string).
-/

/-- A parsed XML element: lxml's `_Element` (tag, attributes, children). -/
inductive XMLElement where
  | mk (tag : String) (attrs : List (String × String)) (children : List XMLElement)

namespace XMLElement

def tag : XMLElement → String
  | .mk t _ _ => t

def attrs : XMLElement → List (String × String)
  | .mk _ a _ => a

def children : XMLElement → List XMLElement
  | .mk _ _ c => c

/-- `element.get(name)`: the value of attribute `name`, or `None`. -/
def get (e : XMLElement) (name : String) : Option String :=
  (e.attrs.find? (fun p => p.1 = name)).map Prod.snd

mutual
/-- All proper descendants of an element, in document (preorder) order:
the node set the ElementPath expression `.//\x2a` walks. -/
def descendants : XMLElement → List XMLElement
  | .mk _ _ cs => descendantsList cs

/-- Preorder walk of a forest of elements. -/
def descendantsList : List XMLElement → List XMLElement
  | [] => []
  | c :: cs => c :: (descendants c ++ descendantsList cs)
end

end XMLElement

namespace XMLElement

/-- `tree.findall('.//tag')`: every proper descendant with the given tag,
in document order. -/
def findall (tree : XMLElement) (tg : String) : List XMLElement :=
  tree.descendants.filter (fun e => e.tag = tg)

/-- `tree.find('.//tag')`: the first proper descendant with the given
tag, if any. -/
def find (tree : XMLElement) (tg : String) : Option XMLElement :=
  (tree.findall tg).head?

end XMLElement

/-- The Python exceptions raised by the embedded code. -/
inductive PyError where
  | keyError (k : String)
  | attributeError (name : String)
  | runtimeError (msg : String)
  | valueError (msg : String)
  | typeError (msg : String)
  deriving DecidableEq, Repr

/-- Python `dict` assignment `d[k] = v`: overwrite in place when the key
exists (keeping its position), append otherwise. -/
def dinsert {κ : Type} {α : Type} [DecidableEq κ] (k : κ) (v : α) :
    List (κ × α) → List (κ × α)
  | [] => [(k, v)]
  | (k', v') :: rest => if k' = k then (k, v) :: rest else (k', v') :: dinsert k v rest

/-- Python `d.get(k)` / `d[k]` on an association list. -/
def dlookup {κ : Type} {α : Type} [DecidableEq κ] (k : κ) :
    List (κ × α) → Option α
  | [] => none
  | (k', v') :: rest => if k' = k then some v' else dlookup k rest

/-- Python `k in d` on an association list. -/
def dcontains {κ : Type} {α : Type} [DecidableEq κ] (k : κ)
    (d : List (κ × α)) : Bool :=
  (dlookup k d).isSome

/-- `<signal>` element (`SignalElement` in `template.py`): `name` and
`handler` are required attributes; `object` defaults to `None`;
`swapped` and `after` hold the raw XML string when present, `none`
standing for the Python default `False`. -/
structure SignalElement where
  name : String
  handler : String
  object : Option String
  swapped : Option String
  after : Option String
  deriving DecidableEq, Repr

/-- `<closure>` element (`ClosureElement` in `template.py`): `function`
and `type_` (XML attribute `type`) are required. -/
structure ClosureElement where
  function : String
  type_ : String
  deriving DecidableEq, Repr

/-- `<object>` element (`ObjectElement` in `template.py`): `type_name`
(XML attribute `class`) is required; `id_` (attribute `id`), `name` and
`internal` default to `None`/`False`. -/
structure ObjectElement where
  type_name : String
  id_ : Option String
  name : Option String
  internal : Option String
  deriving DecidableEq, Repr

/-- `<menu>`, `<submenu>` or `<section>` element (`MenuElement` in
`template.py`): `id_` (attribute `id`) and `domain` default to `None`. -/
structure MenuElement where
  id_ : Option String
  domain : Option String
  deriving DecidableEq, Repr

/-- The `MenuElement.name` property: returns `self.id_`. -/
def MenuElement.name (m : MenuElement) : Option String :=
  m.id_

/-- `BaseElement.get_attributes` on a required field: the XML attribute
must be present, otherwise `AttributeError(name, element)` is raised. -/
def requiredAttr (e : XMLElement) (name : String) : Except PyError String :=
  match e.get name with
  | some v => .ok v
  | none => .error (.attributeError name)

/-- `SignalElement.from_element`: read the declared fields off the XML
element, raising `AttributeError` when a required one is missing. -/
def SignalElement.from_element (e : XMLElement) : Except PyError SignalElement := do
  let name ← requiredAttr e "name"
  let handler ← requiredAttr e "handler"
  pure ⟨name, handler, e.get "object", e.get "swapped", e.get "after"⟩

/-- `ClosureElement.from_element`. -/
def ClosureElement.from_element (e : XMLElement) : Except PyError ClosureElement := do
  let function ← requiredAttr e "function"
  let type_ ← requiredAttr e "type"
  pure ⟨function, type_⟩

/-- `ObjectElement.from_element`. -/
def ObjectElement.from_element (e : XMLElement) : Except PyError ObjectElement := do
  let type_name ← requiredAttr e "class"
  pure ⟨type_name, e.get "id", e.get "name", e.get "internal"⟩

/-- `MenuElement.from_element` (no required fields). -/
def MenuElement.from_element (e : XMLElement) : Except PyError MenuElement :=
  pure ⟨e.get "id", e.get "domain"⟩

/-- `BaseElement.find_elements`: for each tag in `__template_tags__`, in
order, all `.//tag` matches of the tree, concatenated. -/
def findElements (tags : List String) (tree : XMLElement) : List XMLElement :=
  tags.flatMap (fun tg => tree.findall tg)

/-- The loop body of `BaseElement.parse_elements` over a list of found
elements: parse each element, skip it when its key attribute is `None`,
otherwise store it in the dictionary under that key. -/
def parseElementsList {α : Type} (fromElement : XMLElement → Except PyError α)
    (key : α → Option String) :
    List XMLElement → List (String × α) → Except PyError (List (String × α))
  | [], acc => .ok acc
  | e :: es, acc => do
      let obj ← fromElement e
      match key obj with
      | none => parseElementsList fromElement key es acc
      | some k => parseElementsList fromElement key es (dinsert k obj acc)

/-- `BaseElement.parse_elements(tree, key_attr)`, generic in the element
class (its tags and `from_element`) and in the key attribute (read via a
function, Python's `getattr(element_obj, key_attr)`). -/
def parseElements {α : Type} (tags : List String)
    (fromElement : XMLElement → Except PyError α) (key : α → Option String)
    (tree : XMLElement) : Except PyError (List (String × α)) :=
  parseElementsList fromElement key (findElements tags tree) []

/-- `SignalElement.parse_elements(tree, 'handler')`. -/
def SignalElement.parse_elements (tree : XMLElement) :
    Except PyError (List (String × SignalElement)) :=
  parseElements ["signal"] SignalElement.from_element (fun s => some s.handler) tree

/-- `ClosureElement.parse_elements(tree, 'function')`. -/
def ClosureElement.parse_elements (tree : XMLElement) :
    Except PyError (List (String × ClosureElement)) :=
  parseElements ["closure"] ClosureElement.from_element (fun c => some c.function) tree

/-- `ObjectElement.parse_elements(tree, 'id_')`. -/
def ObjectElement.parse_elements (tree : XMLElement) :
    Except PyError (List (String × ObjectElement)) :=
  parseElements ["object"] ObjectElement.from_element (fun o => o.id_) tree

/-- `MenuElement.parse_elements(tree, 'id_')`. -/
def MenuElement.parse_elements (tree : XMLElement) :
    Except PyError (List (String × MenuElement)) :=
  parseElements ["menu", "submenu", "section"] MenuElement.from_element
    (fun m => m.id_) tree

/-- A registered GObject type: its name and, when one exists, the
associated Python type (`.pytype`), identified by name. -/
structure GType where
  name : String
  pytype : Option String
  deriving DecidableEq, Repr

/-- The `Template` dataclass.  The `template` field keeps the source
tree (the code stores `ET.tostring(tree)`, a faithful serialization). -/
structure Template where
  template : XMLElement
  class_name : String
  parent_type : String
  signals : List (String × SignalElement)
  closures : List (String × ClosureElement)
  children : List (String × ObjectElement)
  menus : List (String × MenuElement)

/-- `Template.from_element_tree`, with the live type registry
(`GObject.type_from_name`) passed as `registry`. -/
def Template.from_element_tree (registry : String → Option GType)
    (tree : XMLElement) : Except PyError Template := do
  match tree.find "template" with
  | none => .error (.keyError "template")
  | some element =>
    match element.get "class" with
    | none => .error (.attributeError "class")
    | some class_name =>
      match element.get "parent" with
      | none => .error (.attributeError "parent")
      | some parent =>
        match registry parent with
        | none => .error (.runtimeError ("unresolved gtype for parent: " ++ parent))
        | some parent_type =>
          match parent_type.pytype with
          | none => .error (.runtimeError
              ("unknown python type for parent gtype: " ++ parent_type.name))
          | some pytype => do
            let signals ← SignalElement.parse_elements tree
            let closures ← ClosureElement.parse_elements tree
            let children ← ObjectElement.parse_elements tree
            let menus ← MenuElement.parse_elements tree
            pure ⟨tree, class_name, pytype, signals, closures, children, menus⟩

/-- `GLib.Bytes`: an immutable byte sequence. -/
structure GLibBytes where
  data : List Nat
  deriving DecidableEq, Repr

/-- `GLib.Bytes.get_data`. -/
def GLibBytes.get_data (b : GLibBytes) : List Nat :=
  b.data

/-- `Template.from_string`: parse the bytes with `ET.fromstring` (lxml,
passed as the parameter `fromstring`) and delegate to
`from_element_tree`. -/
def Template.from_string (fromstring : List Nat → Except PyError XMLElement)
    (registry : String → Option GType) (template_string : List Nat) :
    Except PyError Template := do
  let tree ← fromstring template_string
  Template.from_element_tree registry tree

/-- `Template.from_bytes`: unwrap the `GLib.Bytes`, parse with
`ET.fromstring` and delegate to `from_element_tree`. -/
def Template.from_bytes (fromstring : List Nat → Except PyError XMLElement)
    (registry : String → Option GType) (template_bytes : GLibBytes) :
    Except PyError Template := do
  let tree ← fromstring template_bytes.get_data
  Template.from_element_tree registry tree

/-! ## `meta.py`: registering and instantiating templated classes -/

/-- Python truthiness of an optional string (`None` and `''` are falsy). -/
def truthy : Option String → Bool
  | some s => s != ""
  | none => false

/-- Python `a or b` on optional strings: `b` when `a` is falsy. -/
def pyOr (a b : Option String) : Option String :=
  match a with
  | some s => if s = "" then b else some s
  | none => b

/-- How an f-string renders an optional string (`None` prints as such). -/
def optStr : Option String → String
  | some s => s
  | none => "None"

/-- A value stored in `bound_widgets` by `register_template`: either a
child `<object>` element (via `bind_child`) or a menu element (via
`bind_menu`). -/
inductive BoundWidget where
  | child (o : ObjectElement)
  | menu (m : MenuElement)
  deriving DecidableEq, Repr

/-- `element.id_` of a bound widget. -/
def BoundWidget.id_ : BoundWidget → Option String
  | .child o => o.id_
  | .menu m => m.id_

/-- A value stored in `bound_methods` by `register_template`: a signal
or closure element. -/
inductive BoundCallback where
  | signal (s : SignalElement)
  | closure (c : ClosureElement)
  deriving DecidableEq, Repr

/-- The method name of a callback element: `handler` for a signal,
`function` for a closure (`bind_callback`'s `getattr`). -/
def BoundCallback.methodName : BoundCallback → String
  | .signal s => s.handler
  | .closure c => c.function

/-- The diagnostics `register_template` and `init_template` emit through
`logger.warning` (log text abbreviated to its variable part). -/
inductive Warning where
  | alreadyBound (method : String)
  | notFound (method : String)
  | menuAlreadyBound (name : Option String)
  | missingHandler (method : String)
  deriving DecidableEq, Repr

/-- `register_template.bind_menu`: skip elements without an `id`; warn
and skip when the name is already bound; otherwise record the menu
(the `cls.bind_template_child_full` toolkit call is a side effect on the
GObject class, outside the model). -/
def bindMenu (st : List (Option String × BoundWidget) × List Warning)
    (m : MenuElement) : List (Option String × BoundWidget) × List Warning :=
  match m.id_ with
  | none => st
  | some _ =>
    if dcontains m.name st.1 then
      (st.1, st.2 ++ [.menuAlreadyBound m.name])
    else
      (dinsert m.name (.menu m) st.1, st.2)

/-- `register_template.bind_child`: the binding key is
`element.name or element.id_` (also written back onto the element); a
key already bound raises `KeyError`, naming the element's (updated)
`name` in the message. -/
def bindChild (bw : List (Option String × BoundWidget)) (o : ObjectElement) :
    Except PyError (List (Option String × BoundWidget)) :=
  let key := pyOr o.name o.id_
  let o' := { o with name := key }
  if dcontains key bw then
    .error (.keyError ("Duplicate widget ID '" ++ optStr key ++ "' in template"))
  else
    .ok (dinsert key (.child o') bw)

/-- The `bind_child` loop over `template.children.values()`. -/
def bindChildren : List ObjectElement → List (Option String × BoundWidget) →
    Except PyError (List (Option String × BoundWidget))
  | [], bw => .ok bw
  | o :: os, bw => do
      bindChildren os (← bindChild bw o)

/-- `register_template.bind_callback`: warn and skip when the method is
already bound or is not an attribute of the class (`hasattr`), otherwise
record it. -/
def bindCallback (clsAttrs : List String)
    (st : List (String × BoundCallback) × List Warning) (c : BoundCallback) :
    List (String × BoundCallback) × List Warning :=
  let method := c.methodName
  if dcontains method st.1 then
    (st.1, st.2 ++ [.alreadyBound method])
  else if clsAttrs.contains method then
    (dinsert method c st.1, st.2)
  else
    (st.1, st.2 ++ [.notFound method])

/-- What `register_template` computes and stores on the class:
`__template_methods__`, `__template_widgets__`, and the warnings it
logged on the way. -/
structure RegisterResult where
  bound_methods : List (String × BoundCallback)
  bound_widgets : List (Option String × BoundWidget)
  warnings : List Warning

/-- The callback elements `register_template` iterates over: the values
of `template.signals` followed by those of `template.closures`. -/
def templateCallbacks (t : Template) : List BoundCallback :=
  t.signals.map (fun kv => BoundCallback.signal kv.2) ++
    t.closures.map (fun kv => BoundCallback.closure kv.2)

/-- `register_template(cls)` over the class's `__template__`:
menus are bound first, then children, then callbacks (signals before
closures), in the code's dict-literal order.  The class is abstracted to
the set of its attribute names (`hasattr`).  The Gtk 4.0 builder-scope
installation and the `init_template` override are toolkit side effects
modelled by `init_template` below. -/
def register_template (clsAttrs : List String) (t : Template) :
    Except PyError RegisterResult := do
  let st1 := t.menus.foldl (fun st kv => bindMenu st kv.2) ([], [])
  let bw ← bindChildren (t.children.map Prod.snd) st1.1
  let st2 := (templateCallbacks t).foldl (bindCallback clsAttrs) ([], st1.2)
  pure ⟨st2.1, bw, st2.2⟩

/-- The widget-binding loop of `init_template`: for each entry of
`__template_widgets__`, ask the toolkit for the template child of the
element's `id_` (`get_template_child`, the parameter `getChild`) and,
when it is not `None`, `setattr` it on the instance under the entry's
key (`setattr` raises `TypeError` when that key is not a string). -/
def initWidgetsLoop {W : Type} (getChild : Option String → Option W) :
    List (Option String × BoundWidget) → List (String × W) →
    Except PyError (List (String × W))
  | [], self => .ok self
  | (name, el) :: rest, self =>
    match getChild el.id_ with
    | none => initWidgetsLoop getChild rest self
    | some child =>
      match name with
      | some n => initWidgetsLoop getChild rest (dinsert n child self)
      | none => .error (.typeError "attribute name must be string")

/-- `init_template(self, cls, base_init_template)`: after
`base_init_template` ran the builder (which filled
`__template_handlers__`, the parameter `handlers`), bind the template
children into the instance attributes, then warn about every entry of
`__template_methods__` for which the builder never created a closure.
The instance is abstracted to its attribute dictionary `self`. -/
def init_template {W : Type} (getChild : Option String → Option W)
    (handlers : List String)
    (widgets : List (Option String × BoundWidget))
    (methods : List (String × BoundCallback))
    (self : List (String × W)) :
    Except PyError (List (String × W) × List Warning) := do
  let inst ← initWidgetsLoop getChild widgets self
  let ws := methods.foldl
    (fun ws kv => if handlers.contains kv.1 then ws else ws ++ [Warning.missingHandler kv.1]) []
  pure (inst, ws)

/-- `TemplateMeta.__new__`'s treatment of the class dictionary: default
`__gtype_name__` to the class name when the class body did not set it
(the dictionary is abstracted to its string-valued entries). -/
def TemplateMeta_new_dict (name : String) (dict_ : List (String × String)) :
    List (String × String) :=
  if dcontains "__gtype_name__" dict_ then dict_
  else dinsert "__gtype_name__" name dict_

/-- `os.path.join(module_path, name + os.path.extsep + ext)`. -/
def candidateFile (module_path nm ext : String) : String :=
  module_path ++ "/" ++ nm ++ "." ++ ext

/-- The candidate template files `load_template` probes, extension-major
(`ui`, then `xml`, then `glade`) over the candidate base names. -/
def discoveryCandidates (module_path : String) (names : List String) :
    List String :=
  ["ui", "xml", "glade"].flatMap (fun ext =>
    names.map (fun nm => candidateFile module_path nm ext))

/-- The candidate base names: each converter (`str.lower`,
`caseconverter.snakecase`, `caseconverter.pascalcase`) applied to the
module name and the class name.  The code builds a Python `set`, whose
iteration order is unspecified; theorems therefore quantify over
permutations of this canonical deduplicated list. -/
def discoveryNames (converters : List (String → String))
    (module_name cls_name : String) : List String :=
  ([module_name, cls_name].flatMap (fun n => converters.map (fun f => f n))).dedup

/-- Where `TemplateMeta.load_template` found the template data. -/
inductive TemplateSource where
  | fromString (s : String)
  | fromResource (path : String)
  | fromFile (path : String)
  deriving DecidableEq, Repr

/-- `TemplateMeta.load_template`, abstracted past the toolkit reads: the
keyword-or-class-attribute values of `template_string` /
`template_resource` / `template_path` are passed resolved; the
filesystem is the predicate `isfile`; the discovery names are passed as
the list `names` (see `discoveryNames`).  The selected source is
returned instead of the loaded bytes. -/
def load_template (isfile : String → Bool) (module_path : String)
    (names : List String) (cls_name : String)
    (template_string template_resource template_path : Option String) :
    Except PyError TemplateSource :=
  if truthy template_string then .ok (.fromString (template_string.getD ""))
  else if truthy template_resource then .ok (.fromResource (template_resource.getD ""))
  else if truthy template_path then .ok (.fromFile (template_path.getD ""))
  else
    match (discoveryCandidates module_path names).find? isfile with
    | some f => .ok (.fromFile f)
    | none => .error (.valueError
        ("No template found for " ++ cls_name ++ " in " ++ module_path ++ ". "))

/-! ## Concrete fixtures (used by witnesses and counterexamples) -/

/-- A registry knowing `GtkWidget` (with Python type `Gtk.Widget`) and
`NoPyType` (a GType with no associated Python type). -/
def exRegistry : String → Option GType := fun s =>
  if s = "GtkWidget" then some ⟨"GtkWidget", some "Gtk.Widget"⟩
  else if s = "NoPyType" then some ⟨"NoPyType", none⟩
  else none

/-- The test document of `test_template.py`: a template with one signal
and one child button. -/
def exTree : XMLElement :=
  .mk "interface" []
    [.mk "template" [("class", "TemplateTest"), ("parent", "GtkWidget")]
      [.mk "signal" [("name", "notify"), ("handler", "on_test_notify")] [],
       .mk "child" []
         [.mk "object" [("class", "GtkButton"), ("id", "test_button")]
           [.mk "property" [("name", "label")] []]]]]

/-- A template whose `bound_widgets` keys collide: the second child's
`name` attribute equals the first child's `id`. -/
def exTemplateCollide : Template :=
  ⟨exTree, "TemplateTest", "Gtk.Widget", [], [],
    [("a", ⟨"GtkButton", some "a", none, none⟩),
     ("b", ⟨"GtkLabel", some "b", some "a", none⟩)], []⟩

/-- A document defining two child `<object>` widgets with the same
`id` attribute `a`. -/
def exTreeDup : XMLElement :=
  .mk "interface" []
    [.mk "template" [("class", "TemplateTest"), ("parent", "GtkWidget")]
      [.mk "child" [] [.mk "object" [("class", "GtkButton"), ("id", "a")] []],
       .mk "child" [] [.mk "object" [("class", "GtkLabel"), ("id", "a")] []]]]

/-- A document with no `<template>` element anywhere. -/
def exTreeNoTemplate : XMLElement :=
  .mk "interface" [] [.mk "object" [("class", "GtkButton")] []]

/-- A document whose `<template>` element has no `class` attribute. -/
def exTreeNoClass : XMLElement :=
  .mk "interface" [] [.mk "template" [("parent", "GtkWidget")] []]

/-- A document whose `<template>` element has no `parent` attribute. -/
def exTreeNoParent : XMLElement :=
  .mk "interface" [] [.mk "template" [("class", "TemplateTest")] []]

/-- A document whose `<template>` names an unregistered parent type. -/
def exTreeBadParent : XMLElement :=
  .mk "interface" [] [.mk "template" [("class", "T"), ("parent", "Nope")] []]

/-- A document whose `<template>` names a parent type registered without
an associated Python type. -/
def exTreeNoPyParent : XMLElement :=
  .mk "interface" [] [.mk "template" [("class", "T"), ("parent", "NoPyType")] []]

/-- Does the computation raise a `KeyError`? -/
def isKeyError {α : Type} : Except PyError α → Bool
  | .error (.keyError _) => true
  | _ => false

/-- The signal element of `exTree`. -/
def exSignal : SignalElement :=
  ⟨"notify", "on_test_notify", none, none, none⟩

/-- The child object element of `exTree`. -/
def exButton : ObjectElement :=
  ⟨"GtkButton", some "test_button", none, none⟩

/-- The `Template` parsed from `exTree`. -/
def exTemplate : Template :=
  ⟨exTree, "TemplateTest", "Gtk.Widget", [("on_test_notify", exSignal)], [],
    [("test_button", exButton)], []⟩

/-! ## Dictionary lemmas -/

theorem dlookup_dinsert {κ α : Type} [DecidableEq κ] (k k' : κ) (v : α)
    (d : List (κ × α)) :
    dlookup k' (dinsert k v d) = if k = k' then some v else dlookup k' d := by
  induction d with
  | nil => simp [dinsert, dlookup]
  | cons hd tl ih =>
    obtain ⟨k₀, v₀⟩ := hd
    by_cases h₀ : k₀ = k
    · subst h₀
      simp only [dinsert, if_pos rfl, dlookup]
      by_cases h₁ : k₀ = k' <;> simp [h₁]
    · simp only [dinsert, if_neg h₀, dlookup]
      by_cases h₁ : k₀ = k'
      · subst h₁
        have : ¬ k = k₀ := fun h => h₀ h.symm
        simp [dlookup, if_neg this]
      · simp [dlookup, if_neg h₁, ih]

theorem mem_dinsert {κ α : Type} [DecidableEq κ] (k : κ) (v : α)
    (d : List (κ × α)) (p : κ × α) :
    p ∈ dinsert k v d → p = (k, v) ∨ p ∈ d := by
  induction d with
  | nil => simp [dinsert]
  | cons hd tl ih =>
    obtain ⟨k₀, v₀⟩ := hd
    intro hp
    by_cases h₀ : k₀ = k
    · subst h₀
      simp only [dinsert, if_pos rfl] at hp
      rcases List.mem_cons.mp hp with h | h
      · exact Or.inl h
      · exact Or.inr (List.mem_cons_of_mem _ h)
    · simp only [dinsert, if_neg h₀] at hp
      rcases List.mem_cons.mp hp with h | h
      · exact Or.inr (by simp [h])
      · rcases ih h with h' | h'
        · exact Or.inl h'
        · exact Or.inr (List.mem_cons_of_mem _ h')

theorem dcontains_iff_dlookup {κ α : Type} [DecidableEq κ] (k : κ)
    (d : List (κ × α)) :
    dcontains k d = true ↔ ∃ v, dlookup k d = some v := by
  unfold dcontains
  cases dlookup k d <;> simp

theorem dcontains_dinsert {κ α : Type} [DecidableEq κ] (k k' : κ) (v : α)
    (d : List (κ × α)) :
    dcontains k' (dinsert k v d) = true ↔ k = k' ∨ dcontains k' d = true := by
  simp only [dcontains_iff_dlookup, dlookup_dinsert]
  by_cases h : k = k' <;> simp [h]

theorem keys_dinsert_subset {κ α : Type} [DecidableEq κ] (k x : κ) (v : α)
    (d : List (κ × α)) :
    x ∈ (dinsert k v d).map Prod.fst → x = k ∨ x ∈ d.map Prod.fst := by
  intro hx
  rcases List.mem_map.mp hx with ⟨p, hp, hpx⟩
  rcases mem_dinsert k v d p hp with h | h
  · exact Or.inl (by rw [← hpx, h])
  · exact Or.inr (hpx ▸ List.mem_map_of_mem Prod.fst h)

theorem nodup_keys_dinsert {κ α : Type} [DecidableEq κ] (k : κ) (v : α)
    (d : List (κ × α)) (h : (d.map Prod.fst).Nodup) :
    ((dinsert k v d).map Prod.fst).Nodup := by
  induction d with
  | nil => simp [dinsert]
  | cons hd tl ih =>
    obtain ⟨k₀, v₀⟩ := hd
    simp only [List.map_cons, List.nodup_cons] at h
    by_cases h₀ : k₀ = k
    · subst h₀
      simpa [dinsert] using h
    · simp only [dinsert, if_neg h₀, List.map_cons, List.nodup_cons]
      refine ⟨fun hx => ?_, ih h.2⟩
      rcases keys_dinsert_subset k k₀ v tl hx with h' | h'
      · exact h₀ h'
      · exact h.1 h'

theorem dlookup_mem {κ α : Type} [DecidableEq κ] (k : κ) (v : α)
    (d : List (κ × α)) (h : dlookup k d = some v) : (k, v) ∈ d := by
  induction d with
  | nil => simp [dlookup] at h
  | cons hd tl ih =>
    obtain ⟨k₀, v₀⟩ := hd
    by_cases h₀ : k₀ = k
    · subst h₀
      simp only [dlookup, if_true, eq_self_iff_true, Option.some.injEq] at h
      subst h
      exact List.mem_cons_self _ _
    · simp only [dlookup, if_neg h₀] at h
      exact List.mem_cons_of_mem _ (ih h)

/-! ## Parsing lemmas -/

theorem bindOk {ε α β : Type} (a : α) (f : α → Except ε β) :
    (do let x ← (Except.ok a : Except ε α); f x) = f a := rfl

theorem parseElementsList_key_consistent {α : Type}
    (fromElement : XMLElement → Except PyError α) (key : α → Option String) :
    ∀ (es : List XMLElement) (acc d : List (String × α)),
      parseElementsList fromElement key es acc = .ok d →
      (∀ p ∈ acc, key p.2 = some p.1) →
      ∀ p ∈ d, key p.2 = some p.1 := by
  intro es
  induction es with
  | nil =>
    intro acc d h hacc
    simp only [parseElementsList] at h
    cases h
    exact hacc
  | cons e es ih =>
    intro acc d h hacc
    simp only [parseElementsList] at h
    cases hf : fromElement e with
    | error err =>
      rw [hf] at h
      simp [Bind.bind, Except.bind] at h
    | ok obj =>
      rw [hf, bindOk] at h
      cases hk : key obj with
      | none =>
        rw [hk] at h
        exact ih acc d h hacc
      | some k =>
        rw [hk] at h
        refine ih _ d h ?_
        intro p hp
        rcases mem_dinsert k obj acc p hp with h' | h'
        · rw [h']
          exact hk
        · exact hacc p h'

theorem parseElementsList_isOk {α : Type}
    (fromElement : XMLElement → Except PyError α) (key : α → Option String) :
    ∀ (es : List XMLElement) (acc : List (String × α)),
      (∀ e ∈ es, (fromElement e).isOk = true) →
      ∃ d, parseElementsList fromElement key es acc = .ok d := by
  intro es
  induction es with
  | nil =>
    intro acc _
    exact ⟨acc, rfl⟩
  | cons e es ih =>
    intro acc hok
    have he : (fromElement e).isOk = true := hok e (List.mem_cons_self _ _)
    cases hf : fromElement e with
    | error err => rw [hf] at he; simp [Except.isOk, Except.toBool] at he
    | ok obj =>
      have hrest : ∀ e' ∈ es, (fromElement e').isOk = true :=
        fun e' he' => hok e' (List.mem_cons_of_mem _ he')
      simp only [parseElementsList, hf, bindOk]
      cases hk : key obj with
      | none => exact ih acc hrest
      | some k => exact ih (dinsert k obj acc) hrest

theorem signal_from_element_isOk (e : XMLElement)
    (h1 : (e.get "name").isSome) (h2 : (e.get "handler").isSome) :
    (SignalElement.from_element e).isOk = true := by
  obtain ⟨v1, hv1⟩ := Option.isSome_iff_exists.mp h1
  obtain ⟨v2, hv2⟩ := Option.isSome_iff_exists.mp h2
  simp [SignalElement.from_element, requiredAttr, hv1, hv2, Except.isOk,
    Except.toBool, bindOk]

theorem closure_from_element_isOk (e : XMLElement)
    (h1 : (e.get "function").isSome) (h2 : (e.get "type").isSome) :
    (ClosureElement.from_element e).isOk = true := by
  obtain ⟨v1, hv1⟩ := Option.isSome_iff_exists.mp h1
  obtain ⟨v2, hv2⟩ := Option.isSome_iff_exists.mp h2
  simp [ClosureElement.from_element, requiredAttr, hv1, hv2, Except.isOk,
    Except.toBool, bindOk]

theorem object_from_element_isOk (e : XMLElement)
    (h1 : (e.get "class").isSome) :
    (ObjectElement.from_element e).isOk = true := by
  obtain ⟨v1, hv1⟩ := Option.isSome_iff_exists.mp h1
  simp [ObjectElement.from_element, requiredAttr, hv1, Except.isOk,
    Except.toBool, bindOk]

theorem menu_from_element_isOk (e : XMLElement) :
    (MenuElement.from_element e).isOk = true := rfl

/-! ## Claim theorems: the parser -/

/-- C10: `parse_elements` maintains key consistency: in the returned
dictionary, every value's key attribute equals the key it is stored
under (so no element whose key attribute is `None`, which is silently
skipped, can appear in the result), for every tree and key attribute. -/
theorem c10_parse_elements_key_consistent {α : Type} (tags : List String)
    (fromElement : XMLElement → Except PyError α) (key : α → Option String)
    (tree : XMLElement) (d : List (String × α))
    (h : parseElements tags fromElement key tree = .ok d) :
    ∀ p ∈ d, key p.2 = some p.1 :=
  parseElementsList_key_consistent fromElement key _ [] d h (by simp)

/-- Witness for C10 on the repository's own test document. -/
theorem c10_witness :
    (fun s : SignalElement => some s.handler)
        (("on_test_notify", exSignal) : String × SignalElement).2 =
      some (("on_test_notify", exSignal) : String × SignalElement).1 :=
  c10_parse_elements_key_consistent ["signal"] SignalElement.from_element
    (fun s => some s.handler) exTree [("on_test_notify", exSignal)] (by rfl)
    ("on_test_notify", exSignal) (by simp)

/-- C1: on a document whose `<template>` carries `class` and `parent`
attributes, whose `parent` resolves in the registry to a type with an
associated Python type, and whose signal/closure/object elements carry
their (GtkBuilder-)required attributes, `from_element_tree` returns a
`Template` whose `class_name` is the `class` attribute, whose
`parent_type` is the resolved Python type, and whose four dictionaries
are keyed by each element's `handler` / `function` / `id` / `id`. -/
theorem c1_from_element_tree_success (registry : String → Option GType)
    (tree el : XMLElement) (cn pn pt : String) (gt : GType)
    (hfind : tree.find "template" = some el)
    (hclass : el.get "class" = some cn)
    (hparent : el.get "parent" = some pn)
    (hreg : registry pn = some gt)
    (hpy : gt.pytype = some pt)
    (hsig : ∀ e ∈ tree.findall "signal",
        (e.get "name").isSome ∧ (e.get "handler").isSome)
    (hclo : ∀ e ∈ tree.findall "closure",
        (e.get "function").isSome ∧ (e.get "type").isSome)
    (hobj : ∀ e ∈ tree.findall "object", (e.get "class").isSome) :
    ∃ t, Template.from_element_tree registry tree = .ok t ∧
      t.class_name = cn ∧ t.parent_type = pt ∧
      (∀ p ∈ t.signals, p.2.handler = p.1) ∧
      (∀ p ∈ t.closures, p.2.function = p.1) ∧
      (∀ p ∈ t.children, p.2.id_ = some p.1) ∧
      (∀ p ∈ t.menus, p.2.id_ = some p.1) := by
  obtain ⟨ds, hds⟩ := parseElementsList_isOk SignalElement.from_element
    (fun s => some s.handler) (findElements ["signal"] tree) []
    (by
      intro e he
      simp only [findElements, List.flatMap_cons, List.flatMap_nil,
        List.append_nil] at he
      obtain ⟨h1, h2⟩ := hsig e he
      exact signal_from_element_isOk e h1 h2)
  obtain ⟨dc, hdc⟩ := parseElementsList_isOk ClosureElement.from_element
    (fun c => some c.function) (findElements ["closure"] tree) []
    (by
      intro e he
      simp only [findElements, List.flatMap_cons, List.flatMap_nil,
        List.append_nil] at he
      obtain ⟨h1, h2⟩ := hclo e he
      exact closure_from_element_isOk e h1 h2)
  obtain ⟨dch, hdch⟩ := parseElementsList_isOk ObjectElement.from_element
    (fun o => o.id_) (findElements ["object"] tree) []
    (by
      intro e he
      simp only [findElements, List.flatMap_cons, List.flatMap_nil,
        List.append_nil] at he
      exact object_from_element_isOk e (hobj e he))
  obtain ⟨dm, hdm⟩ := parseElementsList_isOk MenuElement.from_element
    (fun m => m.id_) (findElements ["menu", "submenu", "section"] tree) []
    (fun e _ => menu_from_element_isOk e)
  refine ⟨⟨tree, cn, pt, ds, dc, dch, dm⟩, ?_, rfl, rfl, ?_, ?_, ?_, ?_⟩
  · simp only [Template.from_element_tree, hfind, hclass, hparent, hreg, hpy,
      SignalElement.parse_elements, ClosureElement.parse_elements,
      ObjectElement.parse_elements, MenuElement.parse_elements, parseElements,
      hds, hdc, hdch, hdm, bindOk]
    rfl
  · intro p hp
    have := parseElementsList_key_consistent SignalElement.from_element
      (fun s => some s.handler) _ [] ds hds (by simp) p hp
    exact Option.some.inj this
  · intro p hp
    have := parseElementsList_key_consistent ClosureElement.from_element
      (fun c => some c.function) _ [] dc hdc (by simp) p hp
    exact Option.some.inj this
  · intro p hp
    exact parseElementsList_key_consistent ObjectElement.from_element
      (fun o => o.id_) _ [] dch hdch (by simp) p hp
  · intro p hp
    exact parseElementsList_key_consistent MenuElement.from_element
      (fun m => m.id_) _ [] dm hdm (by simp) p hp

/-- Witness for C1 on the repository's own test document. -/
theorem c1_witness :
    (Template.from_element_tree exRegistry exTree).map Template.class_name =
        .ok "TemplateTest" ∧
      (Template.from_element_tree exRegistry exTree).map Template.parent_type =
        .ok "Gtk.Widget" := by
  obtain ⟨t, ht, h1, h2, _⟩ := c1_from_element_tree_success exRegistry exTree
    (.mk "template" [("class", "TemplateTest"), ("parent", "GtkWidget")]
      [.mk "signal" [("name", "notify"), ("handler", "on_test_notify")] [],
       .mk "child" []
         [.mk "object" [("class", "GtkButton"), ("id", "test_button")]
           [.mk "property" [("name", "label")] []]]])
    "TemplateTest" "GtkWidget" "Gtk.Widget" ⟨"GtkWidget", some "Gtk.Widget"⟩
    (by rfl) (by rfl) (by rfl) (by rfl) (by rfl)
    (by decide) (by decide) (by decide)
  rw [ht]
  exact ⟨by simp [Except.map, h1], by simp [Except.map, h2]⟩

/-- C9: malformed documents are rejected with distinct errors before any
type resolution (the registry is arbitrary in all three cases, so no
`Template` is produced and the registry is never relied on):
`KeyError('template')` when the tree contains no `<template>` element,
`AttributeError('class')` when it lacks a `class` attribute, and
`AttributeError('parent')` when it lacks a `parent` attribute. -/
theorem c9_malformed_document_errors (registry : String → Option GType)
    (tree : XMLElement) :
    ((∀ e ∈ tree :: tree.descendants, e.tag ≠ "template") →
      Template.from_element_tree registry tree = .error (.keyError "template"))
    ∧ (∀ el, tree.find "template" = some el → el.get "class" = none →
      Template.from_element_tree registry tree = .error (.attributeError "class"))
    ∧ (∀ el cn, tree.find "template" = some el → el.get "class" = some cn →
      el.get "parent" = none →
      Template.from_element_tree registry tree = .error (.attributeError "parent")) := by
  refine ⟨?_, ?_, ?_⟩
  · intro h
    have hfind : tree.find "template" = none := by
      simp only [XMLElement.find, XMLElement.findall, List.head?_eq_none_iff,
        List.filter_eq_nil_iff, decide_eq_true_eq]
      intro e he
      exact h e (List.mem_cons_of_mem _ he)
    simp [Template.from_element_tree, hfind]
  · intro el hfind hclass
    simp [Template.from_element_tree, hfind, hclass]
  · intro el cn hfind hclass hparent
    simp [Template.from_element_tree, hfind, hclass, hparent]

/-- Witness for C9: the three malformed fixture documents. -/
theorem c9_witness :
    Template.from_element_tree exRegistry exTreeNoTemplate =
        .error (.keyError "template")
    ∧ Template.from_element_tree exRegistry exTreeNoClass =
        .error (.attributeError "class")
    ∧ Template.from_element_tree exRegistry exTreeNoParent =
        .error (.attributeError "parent") :=
  ⟨(c9_malformed_document_errors exRegistry exTreeNoTemplate).1 (by decide),
   (c9_malformed_document_errors exRegistry exTreeNoClass).2.1
     (.mk "template" [("parent", "GtkWidget")] []) (by rfl) (by rfl),
   (c9_malformed_document_errors exRegistry exTreeNoParent).2.2
     (.mk "template" [("class", "TemplateTest")] []) "TemplateTest"
     (by rfl) (by rfl) (by rfl)⟩

/-- C3: type-name resolution fails loudly: when the `parent` attribute
does not resolve in the registry, `from_element_tree` raises
`RuntimeError`, and when the resolved type has no associated Python
type it likewise raises `RuntimeError`; in both cases no `Template` is
produced (the result is an error). -/
theorem c3_parent_resolution_fails_loudly (registry : String → Option GType)
    (tree el : XMLElement) (cn pn : String)
    (hfind : tree.find "template" = some el)
    (hclass : el.get "class" = some cn)
    (hparent : el.get "parent" = some pn) :
    (registry pn = none →
      Template.from_element_tree registry tree =
        .error (.runtimeError ("unresolved gtype for parent: " ++ pn)))
    ∧ (∀ gt, registry pn = some gt → gt.pytype = none →
      Template.from_element_tree registry tree =
        .error (.runtimeError ("unknown python type for parent gtype: " ++ gt.name))) := by
  constructor
  · intro hr
    simp [Template.from_element_tree, hfind, hclass, hparent, hr]
  · intro gt hr hpy
    simp [Template.from_element_tree, hfind, hclass, hparent, hr, hpy]

/-- Witness for C3: an unregistered parent name and a parent type with
no Python type. -/
theorem c3_witness :
    Template.from_element_tree exRegistry exTreeBadParent =
        .error (.runtimeError "unresolved gtype for parent: Nope")
    ∧ Template.from_element_tree exRegistry exTreeNoPyParent =
        .error (.runtimeError "unknown python type for parent gtype: NoPyType") := by
  constructor
  · have h := (c3_parent_resolution_fails_loudly exRegistry exTreeBadParent
      (.mk "template" [("class", "T"), ("parent", "Nope")] []) "T" "Nope"
      (by rfl) (by rfl) (by rfl)).1 (by decide)
    simpa using h
  · have h := (c3_parent_resolution_fails_loudly exRegistry exTreeNoPyParent
      (.mk "template" [("class", "T"), ("parent", "NoPyType")] []) "T" "NoPyType"
      (by rfl) (by rfl) (by rfl)).2 ⟨"NoPyType", none⟩ (by decide) (by rfl)
    simpa using h

/-- C8: `Template.from_string` and `Template.from_bytes` are equivalent:
for every byte sequence, parsing the bytes directly and parsing the
`GLib.Bytes` wrapping them produce equal `Template` results (in
particular the same `class_name`, `parent_type`, `signals`, `closures`,
`children` and `menus`), both routes delegating to
`from_element_tree`. -/
theorem c8_from_string_from_bytes_equiv
    (fromstring : List Nat → Except PyError XMLElement)
    (registry : String → Option GType) (b : List Nat) :
    Template.from_string fromstring registry b =
      Template.from_bytes fromstring registry ⟨b⟩ := rfl

/-! ## Claim theorems: the metaclass -/

/-- C7: `TemplateMeta.__new__` registers the class under its own name:
when the class body does not define `__gtype_name__` the metaclass sets
it to the class's name before the type is created, and a class body that
does define it keeps its value unchanged. -/
theorem c7_gtype_name_defaulting (name : String)
    (dict_ : List (String × String)) :
    (dcontains "__gtype_name__" dict_ = false →
      dlookup "__gtype_name__" (TemplateMeta_new_dict name dict_) = some name)
    ∧ (∀ v, dlookup "__gtype_name__" dict_ = some v →
      dlookup "__gtype_name__" (TemplateMeta_new_dict name dict_) = some v) := by
  constructor
  · intro h
    simp [TemplateMeta_new_dict, h, dlookup_dinsert]
  · intro v hv
    have hc : dcontains "__gtype_name__" dict_ = true :=
      (dcontains_iff_dlookup _ _).mpr ⟨v, hv⟩
    simp [TemplateMeta_new_dict, hc, hv]

/-- Witness for C7: a class body without `__gtype_name__` and one
defining it. -/
theorem c7_witness :
    dlookup "__gtype_name__" (TemplateMeta_new_dict "MyWidget" []) =
        some "MyWidget"
    ∧ dlookup "__gtype_name__"
        (TemplateMeta_new_dict "MyWidget" [("__gtype_name__", "Custom")]) =
        some "Custom" :=
  ⟨(c7_gtype_name_defaulting "MyWidget" []).1 (by decide),
   (c7_gtype_name_defaulting "MyWidget" [("__gtype_name__", "Custom")]).2
     "Custom" (by decide)⟩

/-! ## Lemmas on `find?` over the discovery candidates -/

theorem find?_flatMap_eq_some {β : Type} (p : String → Bool) :
    ∀ (exts : List β) (g : β → List String) (f : String),
      (exts.flatMap g).find? p = some f →
      p f = true ∧ ∃ pre ext post, exts = pre ++ ext :: post ∧ f ∈ g ext ∧
        ∀ e' ∈ pre, ∀ x ∈ g e', p x = false := by
  intro exts
  induction exts with
  | nil => intro g f h; simp at h
  | cons e exts ih =>
    intro g f h
    rw [List.flatMap_cons, List.find?_append] at h
    cases hge : (g e).find? p with
    | some f' =>
      rw [hge] at h
      simp only [Option.or_some, Option.some.injEq] at h
      subst h
      exact ⟨List.find?_some hge, [], e, exts, rfl,
        List.mem_of_find?_eq_some hge, by simp⟩
    | none =>
      rw [hge] at h
      simp only [Option.none_or] at h
      obtain ⟨hp, pre, ext, post, hexts, hmem, hpre⟩ := ih g f h
      refine ⟨hp, e :: pre, ext, post, by rw [List.cons_append, hexts], hmem, ?_⟩
      intro e' he' x hx
      rcases List.mem_cons.mp he' with h' | h'
      · subst h'
        have := List.find?_eq_none.mp hge x hx
        simpa using this
      · exact hpre e' h' x hx

/-- C6: with no `template_string`, `template_resource` or
`template_path` supplied, `load_template` probes for files named after
the module or class name (converted by `str.lower`,
`caseconverter.snakecase`, `caseconverter.pascalcase`) with extension
`ui`, `xml` or `glade`, trying extensions in that order: it raises
`ValueError` naming the class exactly when no candidate file exists, and
otherwise loads an existing candidate whose extension is the first one
with any existing candidate.  The name set's iteration order is an
arbitrary permutation of `discoveryNames`. -/
theorem c6_load_template_discovery (isfile : String → Bool)
    (module_path module_name cls_name : String)
    (lower snake pascal : String → String) (names : List String)
    (hnames : names.Perm (discoveryNames [lower, snake, pascal] module_name cls_name)) :
    (load_template isfile module_path names cls_name none none none =
        .error (.valueError
          ("No template found for " ++ cls_name ++ " in " ++ module_path ++ ". "))
      ↔ ∀ nm ∈ discoveryNames [lower, snake, pascal] module_name cls_name,
          ∀ ext ∈ ["ui", "xml", "glade"],
            isfile (candidateFile module_path nm ext) = false)
    ∧ (∀ f, load_template isfile module_path names cls_name none none none =
          .ok (.fromFile f) →
        isfile f = true ∧
        ∃ pre ext post, ["ui", "xml", "glade"] = pre ++ ext :: post ∧
          (∃ nm ∈ discoveryNames [lower, snake, pascal] module_name cls_name,
            f = candidateFile module_path nm ext) ∧
          ∀ ext' ∈ pre,
            ∀ nm' ∈ discoveryNames [lower, snake, pascal] module_name cls_name,
              isfile (candidateFile module_path nm' ext') = false) := by
  have hload : load_template isfile module_path names cls_name none none none =
      match (discoveryCandidates module_path names).find? isfile with
      | some f => .ok (.fromFile f)
      | none => .error (.valueError
          ("No template found for " ++ cls_name ++ " in " ++ module_path ++ ". ")) := by
    simp [load_template, truthy]
  constructor
  · cases hfind : (discoveryCandidates module_path names).find? isfile with
    | some f =>
      rw [hfind] at hload
      constructor
      · intro heq
        rw [hload] at heq
        simp at heq
      · intro hall
        exfalso
        have hmemf := List.mem_of_find?_eq_some hfind
        simp only [discoveryCandidates, List.mem_flatMap, List.mem_map] at hmemf
        obtain ⟨ext, hext, nm, hnm, hf⟩ := hmemf
        have : isfile f = false :=
          hf ▸ hall nm (hnames.mem_iff.mp hnm) ext hext
        rw [List.find?_some hfind] at this
        exact absurd this (by simp)
    | none =>
      rw [hfind] at hload
      constructor
      · intro _ nm hnm ext hext
        have hmem : candidateFile module_path nm ext ∈
            discoveryCandidates module_path names := by
          simp only [discoveryCandidates, List.mem_flatMap, List.mem_map]
          exact ⟨ext, hext, nm, hnames.mem_iff.mpr hnm, rfl⟩
        have := List.find?_eq_none.mp hfind _ hmem
        simpa using this
      · intro _
        exact hload
  · intro f hf
    cases hfind : (discoveryCandidates module_path names).find? isfile with
    | none =>
      rw [hfind] at hload
      rw [hload] at hf
      simp at hf
    | some f' =>
      rw [hfind] at hload
      rw [hload] at hf
      simp only [Except.ok.injEq, TemplateSource.fromFile.injEq] at hf
      subst hf
      obtain ⟨hp, pre, ext, post, hexts, hmem, hpre⟩ :=
        find?_flatMap_eq_some isfile ["ui", "xml", "glade"]
          (fun ext => names.map (fun nm => candidateFile module_path nm ext))
          f' hfind
      refine ⟨hp, pre, ext, post, hexts, ?_, ?_⟩
      · rcases List.mem_map.mp hmem with ⟨nm, hnm, hf'⟩
        exact ⟨nm, hnames.mem_iff.mp hnm, hf'.symm⟩
      · intro ext' hext' nm' hnm'
        exact hpre ext' hext' (candidateFile module_path nm' ext')
          (List.mem_map_of_mem _ (hnames.mem_iff.mpr hnm'))

/-- Witness for C6: no candidate file exists, so discovery raises
`ValueError` naming the class. -/
theorem c6_witness :
    load_template (fun _ => false) "pkg" ["m", "C"] "C" none none none =
      .error (.valueError "No template found for C in pkg. ") := by
  have h := (c6_load_template_discovery (fun _ => false) "pkg" "m" "C"
    (fun s => s) (fun s => s) (fun s => s) ["m", "C"] (by decide)).1.mpr
    (fun _ _ _ _ => rfl)
  simpa using h

/-! ## Lemmas on `register_template`'s widget binding -/

theorem bindChild_ok (bw : List (Option String × BoundWidget))
    (o : ObjectElement) (bw1 : List (Option String × BoundWidget))
    (h : bindChild bw o = .ok bw1) :
    dcontains (pyOr o.name o.id_) bw = false ∧
      bw1 = dinsert (pyOr o.name o.id_)
        (.child { o with name := pyOr o.name o.id_ }) bw := by
  by_cases hc : dcontains (pyOr o.name o.id_) bw = true
  · simp [bindChild, hc] at h
  · rw [Bool.not_eq_true] at hc
    simp only [bindChild, hc, Bool.false_eq_true, if_false, Except.ok.injEq] at h
    exact ⟨hc, h.symm⟩

theorem bindChild_error (bw : List (Option String × BoundWidget))
    (o : ObjectElement) (e : PyError) (h : bindChild bw o = .error e) :
    ∃ s, e = .keyError s := by
  by_cases hc : dcontains (pyOr o.name o.id_) bw = true
  · simp only [bindChild, hc, if_true, Except.error.injEq] at h
    exact ⟨_, h.symm⟩
  · rw [Bool.not_eq_true] at hc
    simp [bindChild, hc] at h

theorem bindChildren_append : ∀ (os1 os2 : List ObjectElement)
    (bw : List (Option String × BoundWidget)),
    bindChildren (os1 ++ os2) bw =
      (do let bw' ← bindChildren os1 bw; bindChildren os2 bw') := by
  intro os1
  induction os1 with
  | nil => intro os2 bw; rw [List.nil_append]; rfl
  | cons o os ih =>
    intro os2 bw
    rw [List.cons_append]
    simp only [bindChildren]
    cases h : bindChild bw o with
    | error e => simp [h, Bind.bind, Except.bind]
    | ok bw1 => simp [h, bindOk, ih]

theorem bindChildren_dcontains : ∀ (os : List ObjectElement)
    (bw bw' : List (Option String × BoundWidget)) (k : Option String),
    bindChildren os bw = .ok bw' → dcontains k bw = true →
    dcontains k bw' = true := by
  intro os
  induction os with
  | nil => intro bw bw' k h hk; cases h; exact hk
  | cons o os ih =>
    intro bw bw' k h hk
    simp only [bindChildren] at h
    cases hc : bindChild bw o with
    | error e => rw [hc] at h; simp [Bind.bind, Except.bind] at h
    | ok bw1 =>
      rw [hc, bindOk] at h
      obtain ⟨_, hbw1⟩ := bindChild_ok bw o bw1 hc
      exact ih bw1 bw' k h
        (hbw1 ▸ (dcontains_dinsert _ _ _ _).mpr (Or.inr hk))

theorem bindChildren_error_keyError : ∀ (os : List ObjectElement)
    (bw : List (Option String × BoundWidget)) (e : PyError),
    bindChildren os bw = .error e → ∃ s, e = .keyError s := by
  intro os
  induction os with
  | nil => intro bw e h; simp [bindChildren] at h
  | cons o os ih =>
    intro bw e h
    simp only [bindChildren] at h
    cases hc : bindChild bw o with
    | error e' =>
      rw [hc] at h
      simp only [Bind.bind, Except.bind, Except.error.injEq] at h
      exact h ▸ bindChild_error bw o e' hc
    | ok bw1 =>
      rw [hc, bindOk] at h
      exact ih bw1 e h

theorem bindChildren_dup_key (o1 o2 : ObjectElement)
    (hkey : pyOr o1.name o1.id_ = pyOr o2.name o2.id_) :
    ∀ (l1 l2 l3 : List ObjectElement)
      (bw : List (Option String × BoundWidget)),
      ∃ e, bindChildren (l1 ++ o1 :: (l2 ++ o2 :: l3)) bw = .error e := by
  intro l1 l2 l3 bw
  cases hres : bindChildren (l1 ++ o1 :: (l2 ++ o2 :: l3)) bw with
  | error e => exact ⟨e, rfl⟩
  | ok bwf =>
    exfalso
    rw [bindChildren_append] at hres
    cases h1 : bindChildren l1 bw with
    | error e => rw [h1] at hres; simp [Bind.bind, Except.bind] at hres
    | ok bw1 =>
      rw [h1, bindOk] at hres
      simp only [bindChildren] at hres
      cases h2 : bindChild bw1 o1 with
      | error e => rw [h2] at hres; simp [Bind.bind, Except.bind] at hres
      | ok bw2 =>
        rw [h2, bindOk] at hres
        obtain ⟨_, hbw2⟩ := bindChild_ok bw1 o1 bw2 h2
        have hk1 : dcontains (pyOr o1.name o1.id_) bw2 = true :=
          hbw2 ▸ (dcontains_dinsert _ _ _ _).mpr (Or.inl rfl)
        rw [bindChildren_append] at hres
        cases h3 : bindChildren l2 bw2 with
        | error e => rw [h3] at hres; simp [Bind.bind, Except.bind] at hres
        | ok bw3 =>
          rw [h3, bindOk] at hres
          have hk3 : dcontains (pyOr o1.name o1.id_) bw3 = true :=
            bindChildren_dcontains l2 bw2 bw3 _ h3 hk1
          simp only [bindChildren] at hres
          cases h4 : bindChild bw3 o2 with
          | error e => rw [h4] at hres; simp [Bind.bind, Except.bind] at hres
          | ok bw4 =>
            obtain ⟨hnc4, _⟩ := bindChild_ok bw3 o2 bw4 h4
            rw [← hkey, hk3] at hnc4
            exact absurd hnc4 (by simp)

/-- C2 (counterexample): a document defining two child widgets with the
same ID `a` does NOT raise a `KeyError`: parsing collapses the two
`<object>` elements into a single `children` entry (the dictionary has
the single key `a`), and registering the parsed template succeeds. -/
theorem c2_counterexample :
    (Template.from_element_tree exRegistry exTreeDup).map
        (fun t => t.children.map Prod.fst) = .ok ["a"]
    ∧ ((Template.from_element_tree exRegistry exTreeDup).bind
        (register_template [])).isOk = true := by
  constructor
  · rfl
  · rfl

/-- C2 (amended): duplicate detection happens at binding time over the
binding keys `element.name or element.id_`: whenever two entries of the
parsed `children` dictionary share the same binding key, registering the
template raises a `KeyError` (two `<object>` elements with the same `id`
attribute never reach this check, since parsing collapses them into one
entry). -/
theorem c2_amended_duplicate_bind_key (clsAttrs : List String) (t : Template)
    (l1 l2 l3 : List (String × ObjectElement)) (k1 k2 : String)
    (o1 o2 : ObjectElement)
    (hchildren : t.children = l1 ++ (k1, o1) :: (l2 ++ (k2, o2) :: l3))
    (hkey : pyOr o1.name o1.id_ = pyOr o2.name o2.id_) :
    (register_template clsAttrs t).isOk = false ∧
      isKeyError (register_template clsAttrs t) = true := by
  obtain ⟨e, he⟩ := bindChildren_dup_key o1 o2 hkey (l1.map Prod.snd)
    (l2.map Prod.snd) (l3.map Prod.snd)
    (t.menus.foldl (fun st kv => bindMenu st kv.2) ([], [])).1
  have hmap : t.children.map Prod.snd =
      l1.map Prod.snd ++ o1 :: (l2.map Prod.snd ++ o2 :: l3.map Prod.snd) := by
    rw [hchildren]
    simp
  obtain ⟨s, hs⟩ := bindChildren_error_keyError _ _ _ he
  have hreg : register_template clsAttrs t = .error e := by
    simp only [register_template, hmap, he, Bind.bind, Except.bind]
  rw [hreg, hs]
  exact ⟨rfl, rfl⟩

/-- Witness for the amended C2: a parsed template whose second child's
`name` attribute collides with the first child's `id`. -/
theorem c2_witness :
    (register_template [] exTemplateCollide).isOk = false ∧
      isKeyError (register_template [] exTemplateCollide) = true :=
  c2_amended_duplicate_bind_key [] exTemplateCollide [] [] [] "a" "b"
    ⟨"GtkButton", some "a", none, none⟩ ⟨"GtkLabel", some "b", some "a", none⟩
    (by rfl) (by decide)

/-! ## Lemmas for instance initialisation -/

theorem bindMenu_nodup (st : List (Option String × BoundWidget) × List Warning)
    (m : MenuElement) (h : (st.1.map Prod.fst).Nodup) :
    (((bindMenu st m).1).map Prod.fst).Nodup := by
  rcases hid : m.id_ with _ | v
  · simpa [bindMenu, hid] using h
  · by_cases hc : dcontains m.name st.1 = true
    · simpa [bindMenu, hid, hc] using h
    · rw [Bool.not_eq_true] at hc
      simp only [bindMenu, hid, hc, Bool.false_eq_true, if_false]
      exact nodup_keys_dinsert _ _ _ h

theorem menusFold_nodup (ms : List (String × MenuElement)) :
    ∀ st : List (Option String × BoundWidget) × List Warning,
      (st.1.map Prod.fst).Nodup →
      (((ms.foldl (fun st kv => bindMenu st kv.2) st).1).map Prod.fst).Nodup := by
  induction ms with
  | nil => intro st h; exact h
  | cons m ms ih =>
    intro st h
    rw [List.foldl_cons]
    exact ih _ (bindMenu_nodup st m.2 h)

theorem bindChildren_nodup : ∀ (os : List ObjectElement)
    (bw bw' : List (Option String × BoundWidget)),
    (bw.map Prod.fst).Nodup → bindChildren os bw = .ok bw' →
    (bw'.map Prod.fst).Nodup := by
  intro os
  induction os with
  | nil => intro bw bw' h heq; cases heq; exact h
  | cons o os ih =>
    intro bw bw' h heq
    simp only [bindChildren] at heq
    cases hc : bindChild bw o with
    | error e => rw [hc] at heq; simp [Bind.bind, Except.bind] at heq
    | ok bw1 =>
      rw [hc, bindOk] at heq
      obtain ⟨_, hbw1⟩ := bindChild_ok bw o bw1 hc
      exact ih bw1 bw' (hbw1 ▸ nodup_keys_dinsert _ _ _ h) heq

theorem register_bound_widgets_nodup (clsAttrs : List String) (t : Template)
    (r : RegisterResult) (h : register_template clsAttrs t = .ok r) :
    (r.bound_widgets.map Prod.fst).Nodup := by
  cases hbc : bindChildren (t.children.map Prod.snd)
      ((t.menus.foldl (fun st kv => bindMenu st kv.2) ([], [])).1) with
  | error e =>
    simp only [register_template, hbc, Bind.bind, Except.bind] at h
    exact Except.noConfusion h
  | ok bw =>
    have hnodup : (bw.map Prod.fst).Nodup :=
      bindChildren_nodup _ _ bw
        (menusFold_nodup t.menus ([], []) (by simp)) hbc
    simp only [register_template, hbc, bindOk] at h
    cases h
    exact hnodup

theorem initWidgetsLoop_lookup_preserved {W : Type}
    (getChild : Option String → Option W) :
    ∀ (widgets : List (Option String × BoundWidget))
      (self inst : List (String × W)),
      initWidgetsLoop getChild widgets self = .ok inst →
      ∀ n : String, (some n) ∉ widgets.map Prod.fst →
        dlookup n inst = dlookup n self := by
  intro widgets
  induction widgets with
  | nil => intro self inst h n _; cases h; rfl
  | cons p rest ih =>
    obtain ⟨name, el⟩ := p
    intro self inst h n hn
    simp only [List.map_cons, List.mem_cons] at hn
    push_neg at hn
    obtain ⟨hn1, hn2⟩ := hn
    simp only [initWidgetsLoop] at h
    cases hg : getChild el.id_ with
    | none => rw [hg] at h; exact ih self inst h n hn2
    | some c =>
      rw [hg] at h
      cases name with
      | none => simp at h
      | some nm =>
        rw [ih _ inst h n hn2, dlookup_dinsert]
        have hne : nm ≠ n := fun he => hn1 (by rw [he])
        simp [hne]

theorem initWidgetsLoop_binds {W : Type}
    (getChild : Option String → Option W) :
    ∀ (widgets : List (Option String × BoundWidget))
      (self inst : List (String × W)),
      initWidgetsLoop getChild widgets self = .ok inst →
      (widgets.map Prod.fst).Nodup →
      ∀ (n : String) (el : BoundWidget) (c : W),
        (some n, el) ∈ widgets → getChild el.id_ = some c →
        dlookup n inst = some c := by
  intro widgets
  induction widgets with
  | nil => intro self inst _ _ n el c hmem; simp at hmem
  | cons p rest ih =>
    obtain ⟨name, e⟩ := p
    intro self inst h hnodup n el c hmem hg
    simp only [List.map_cons, List.nodup_cons] at hnodup
    obtain ⟨hnin, hnodup'⟩ := hnodup
    simp only [initWidgetsLoop] at h
    rcases List.mem_cons.mp hmem with heq | hmem'
    · obtain ⟨h1, h2⟩ := Prod.mk.injEq _ _ _ _ ▸ heq
      subst h2
      rw [← h1] at h hnin
      rw [hg] at h
      have hpres := initWidgetsLoop_lookup_preserved getChild rest _ inst h n hnin
      rw [hpres, dlookup_dinsert]
      simp
    · cases hge : getChild e.id_ with
      | none => rw [hge] at h; exact ih self inst h hnodup' n el c hmem' hg
      | some c' =>
        rw [hge] at h
        cases name with
        | none => simp at h
        | some nm => exact ih _ inst h hnodup' n el c hmem' hg

/-- C4: `init_template` binds every discovered child widget: for every
entry `(name, element)` of the class's `__template_widgets__` for which
the toolkit returns a non-`None` template child for `element.id_`, the
instance attribute `name` ends up set to that child. -/
theorem c4_init_template_binds_children {W : Type}
    (getChild : Option String → Option W) (handlers : List String)
    (clsAttrs : List String) (t : Template) (r : RegisterResult)
    (hreg : register_template clsAttrs t = .ok r)
    (self inst : List (String × W)) (ws : List Warning)
    (hinit : init_template getChild handlers r.bound_widgets r.bound_methods
      self = .ok (inst, ws))
    (n : String) (el : BoundWidget)
    (hmem : (some n, el) ∈ r.bound_widgets)
    (c : W) (hchild : getChild el.id_ = some c) :
    dlookup n inst = some c := by
  have hnodup := register_bound_widgets_nodup clsAttrs t r hreg
  cases hloop : initWidgetsLoop getChild r.bound_widgets self with
  | error e => simp [init_template, hloop, Bind.bind, Except.bind] at hinit
  | ok inst' =>
    have hi : inst' = inst := by
      simp only [init_template, hloop, bindOk, pure, Except.pure,
        Except.ok.injEq, Prod.mk.injEq] at hinit
      exact hinit.1
    rw [← hi]
    exact initWidgetsLoop_binds getChild r.bound_widgets self inst'
      hloop hnodup n el c hmem hchild

/-- Witness for C4: the test template's button child, bound through
`register_template` and `init_template`. -/
theorem c4_witness :
    dlookup "test_button" [("test_button", (1 : Nat))] = some 1 :=
  c4_init_template_binds_children
    (fun o => if o = some "test_button" then some 1 else none)
    ["on_test_notify"] ["on_test_notify"] exTemplate
    ⟨[("on_test_notify", .signal exSignal)],
      [(some "test_button",
        .child ⟨"GtkButton", some "test_button", some "test_button", none⟩)], []⟩
    (by rfl) [] [("test_button", 1)] []
    (by rfl) "test_button"
    (.child ⟨"GtkButton", some "test_button", some "test_button", none⟩)
    (by simp) 1 (by decide)

/-! ## Lemmas on callback binding and handler diagnostics -/

theorem bindCallback_inv (clsAttrs : List String)
    (st : List (String × BoundCallback) × List Warning) (c : BoundCallback)
    (hinv : ∀ k, dcontains k st.1 = true → clsAttrs.contains k = true) :
    ∀ k, dcontains k ((bindCallback clsAttrs st c).1) = true →
      clsAttrs.contains k = true := by
  intro k hk
  by_cases h1 : dcontains c.methodName st.1 = true
  · simp only [bindCallback, h1, if_true] at hk
    exact hinv k hk
  · rw [Bool.not_eq_true] at h1
    by_cases h2 : clsAttrs.contains c.methodName = true
    · simp only [bindCallback, h1, Bool.false_eq_true, if_false, h2,
        if_true] at hk
      rcases (dcontains_dinsert _ _ _ _).mp hk with h | h
      · exact h ▸ h2
      · exact hinv k h
    · rw [Bool.not_eq_true] at h2
      simp only [bindCallback, h1, h2, Bool.false_eq_true, if_false] at hk
      exact hinv k hk

theorem callbackFold_inv (clsAttrs : List String) :
    ∀ (cs : List BoundCallback)
      (st : List (String × BoundCallback) × List Warning),
      (∀ k, dcontains k st.1 = true → clsAttrs.contains k = true) →
      ∀ k, dcontains k ((cs.foldl (bindCallback clsAttrs) st).1) = true →
        clsAttrs.contains k = true := by
  intro cs
  induction cs with
  | nil => intro st hinv; exact hinv
  | cons c cs ih =>
    intro st hinv
    rw [List.foldl_cons]
    exact ih _ (bindCallback_inv clsAttrs st c hinv)

theorem bindCallback_warnings (clsAttrs : List String)
    (st : List (String × BoundCallback) × List Warning) (c : BoundCallback) :
    ∃ ws, (bindCallback clsAttrs st c).2 = st.2 ++ ws := by
  by_cases h1 : dcontains c.methodName st.1 = true
  · exact ⟨[.alreadyBound c.methodName], by simp [bindCallback, h1]⟩
  · rw [Bool.not_eq_true] at h1
    by_cases h2 : clsAttrs.contains c.methodName = true
    · have h2' : c.methodName ∈ clsAttrs := by simpa using h2
      exact ⟨[], by simp [bindCallback, h1, h2']⟩
    · rw [Bool.not_eq_true] at h2
      have h2' : c.methodName ∉ clsAttrs := by simpa using h2
      exact ⟨[.notFound c.methodName], by simp [bindCallback, h1, h2']⟩

theorem callbackFold_warnings (clsAttrs : List String) :
    ∀ (cs : List BoundCallback)
      (st : List (String × BoundCallback) × List Warning),
      ∃ ws, (cs.foldl (bindCallback clsAttrs) st).2 = st.2 ++ ws := by
  intro cs
  induction cs with
  | nil => intro st; exact ⟨[], by simp⟩
  | cons c cs ih =>
    intro st
    rw [List.foldl_cons]
    obtain ⟨ws1, hws1⟩ := bindCallback_warnings clsAttrs st c
    obtain ⟨ws2, hws2⟩ := ih (bindCallback clsAttrs st c)
    exact ⟨ws1 ++ ws2, by rw [hws2, hws1, List.append_assoc]⟩

theorem callbackFold_notFound (clsAttrs : List String) :
    ∀ (cs : List BoundCallback)
      (st : List (String × BoundCallback) × List Warning),
      (∀ k, dcontains k st.1 = true → clsAttrs.contains k = true) →
      ∀ c ∈ cs, clsAttrs.contains c.methodName = false →
        Warning.notFound c.methodName ∈
          ((cs.foldl (bindCallback clsAttrs) st).2) := by
  intro cs
  induction cs with
  | nil => intro st _ c hc; simp at hc
  | cons c' cs ih =>
    intro st hinv c hc hnc
    rw [List.foldl_cons]
    rcases List.mem_cons.mp hc with h | h
    · subst h
      have h1 : dcontains c.methodName st.1 = false := by
        by_cases hd : dcontains c.methodName st.1 = true
        · rw [hinv _ hd] at hnc; exact absurd hnc (by simp)
        · exact Bool.not_eq_true _ ▸ hd
      have hnc' : c.methodName ∉ clsAttrs := by simpa using hnc
      have hstep : (bindCallback clsAttrs st c).2 =
          st.2 ++ [Warning.notFound c.methodName] := by
        simp [bindCallback, h1, hnc']
      obtain ⟨ws, hws⟩ :=
        callbackFold_warnings clsAttrs cs (bindCallback clsAttrs st c)
      rw [hws, hstep]
      simp
    · exact ih _ (bindCallback_inv clsAttrs st c' hinv) c h hnc

theorem missingFold_mono (handlers : List String) :
    ∀ (methods : List (String × BoundCallback)) (ws0 : List Warning),
      ∃ ws, methods.foldl
        (fun ws kv => if handlers.contains kv.1 then ws
          else ws ++ [Warning.missingHandler kv.1]) ws0 = ws0 ++ ws := by
  intro methods
  induction methods with
  | nil => intro ws0; exact ⟨[], by simp⟩
  | cons kv methods ih =>
    intro ws0
    rw [List.foldl_cons]
    by_cases h : handlers.contains kv.1 = true
    · obtain ⟨ws, hws⟩ := ih ws0
      exact ⟨ws, by rw [← hws]; simp only [h, if_true]⟩
    · rw [Bool.not_eq_true] at h
      obtain ⟨ws, hws⟩ := ih (ws0 ++ [Warning.missingHandler kv.1])
      refine ⟨[Warning.missingHandler kv.1] ++ ws, ?_⟩
      simp only [h, Bool.false_eq_true, if_false]
      rw [hws, List.append_assoc]

theorem missingFold_mem (handlers : List String) :
    ∀ (methods : List (String × BoundCallback)) (ws0 : List Warning)
      (m : String) (cb : BoundCallback),
      (m, cb) ∈ methods → handlers.contains m = false →
      Warning.missingHandler m ∈ methods.foldl
        (fun ws kv => if handlers.contains kv.1 then ws
          else ws ++ [Warning.missingHandler kv.1]) ws0 := by
  intro methods
  induction methods with
  | nil => intro ws0 m cb hmem; simp at hmem
  | cons kv methods ih =>
    intro ws0 m cb hmem hm
    rw [List.foldl_cons]
    rcases List.mem_cons.mp hmem with h | h
    · subst h
      simp only [hm, Bool.false_eq_true, if_false]
      obtain ⟨ws, hws⟩ := missingFold_mono handlers methods
        (ws0 ++ [Warning.missingHandler m])
      rw [hws]
      simp
    · exact ih _ m cb h hm

theorem initWidgetsLoop_isOk {W : Type} (getChild : Option String → Option W) :
    ∀ (widgets : List (Option String × BoundWidget))
      (self : List (String × W)),
      (∀ p ∈ widgets, p.1 ≠ none) →
      ∃ inst, initWidgetsLoop getChild widgets self = .ok inst := by
  intro widgets
  induction widgets with
  | nil => intro self _; exact ⟨self, rfl⟩
  | cons p rest ih =>
    obtain ⟨name, el⟩ := p
    intro self hkeys
    have hrest : ∀ p ∈ rest, p.1 ≠ none :=
      fun p hp => hkeys p (List.mem_cons_of_mem _ hp)
    simp only [initWidgetsLoop]
    cases hg : getChild el.id_ with
    | none => exact ih self hrest
    | some c =>
      cases hname : name with
      | none =>
        exact absurd (hname ▸ hkeys (name, el) (List.mem_cons_self _ _)) (by simp [hname])
      | some nm => exact ih (dinsert nm c self) hrest

/-- C5: missing-handler diagnostics never raise.  (1) A signal or
closure element whose method is not an attribute of the class is warned
about (`notFound`) and excluded from `__template_methods__`; (2) the
only exception `register_template` can raise is `bind_child`'s
`KeyError`, so callback binding itself never raises; (3) at instance
construction every bound method for which the builder never created a
closure (not in `__template_handlers__`) is reported with a
`missingHandler` warning; (4) `init_template` raises nothing when the
widget keys are strings. -/
theorem c5_missing_handler_diagnostics (clsAttrs : List String) (t : Template) :
    (∀ r, register_template clsAttrs t = .ok r →
      ∀ cb ∈ templateCallbacks t, clsAttrs.contains cb.methodName = false →
        dcontains cb.methodName r.bound_methods = false ∧
          Warning.notFound cb.methodName ∈ r.warnings)
    ∧ ((register_template clsAttrs t).isOk = false →
        isKeyError (register_template clsAttrs t) = true)
    ∧ (∀ {W : Type} (getChild : Option String → Option W)
        (handlers : List String) (r : RegisterResult)
        (self inst : List (String × W)) (ws : List Warning),
        register_template clsAttrs t = .ok r →
        init_template getChild handlers r.bound_widgets r.bound_methods self =
          .ok (inst, ws) →
        ∀ (m : String) (cb : BoundCallback), (m, cb) ∈ r.bound_methods →
          handlers.contains m = false → Warning.missingHandler m ∈ ws)
    ∧ (∀ {W : Type} (getChild : Option String → Option W)
        (handlers : List String)
        (widgets : List (Option String × BoundWidget))
        (methods : List (String × BoundCallback)) (self : List (String × W)),
        (∀ p ∈ widgets, p.1 ≠ none) →
        (init_template getChild handlers widgets methods self).isOk = true) := by
  refine ⟨?_, ?_, ?_, ?_⟩
  · intro r hr cb hcb hnc
    cases hbc : bindChildren (t.children.map Prod.snd)
        ((t.menus.foldl (fun st kv => bindMenu st kv.2) ([], [])).1) with
    | error e =>
      simp only [register_template, hbc, Bind.bind, Except.bind] at hr
      exact Except.noConfusion hr
    | ok bw =>
      simp only [register_template, hbc, bindOk, pure, Except.pure,
        Except.ok.injEq] at hr
      have hinv0 : ∀ k, dcontains k
          (([] : List (String × BoundCallback)),
            (t.menus.foldl (fun st kv => bindMenu st kv.2) ([], [])).2).1 = true →
          clsAttrs.contains k = true := by
        intro k hk
        simp [dcontains, dlookup] at hk
      constructor
      · by_cases hd : dcontains cb.methodName r.bound_methods = true
        · exfalso
          have : clsAttrs.contains cb.methodName = true := by
            have hrb : r.bound_methods =
                ((templateCallbacks t).foldl (bindCallback clsAttrs)
                  ([], (t.menus.foldl (fun st kv => bindMenu st kv.2) ([], [])).2)).1 := by
              rw [← hr]
            exact callbackFold_inv clsAttrs (templateCallbacks t) _ hinv0
              cb.methodName (hrb ▸ hd)
          rw [this] at hnc
          exact absurd hnc (by simp)
        · exact Bool.not_eq_true _ ▸ hd
      · have hrw : r.warnings =
            ((templateCallbacks t).foldl (bindCallback clsAttrs)
              ([], (t.menus.foldl (fun st kv => bindMenu st kv.2) ([], [])).2)).2 := by
          rw [← hr]
        rw [hrw]
        exact callbackFold_notFound clsAttrs (templateCallbacks t) _ hinv0
          cb hcb hnc
  · intro hnotok
    cases hbc : bindChildren (t.children.map Prod.snd)
        ((t.menus.foldl (fun st kv => bindMenu st kv.2) ([], [])).1) with
    | ok bw =>
      exfalso
      simp only [register_template, hbc, bindOk, pure, Except.pure,
        Except.isOk, Except.toBool] at hnotok
      exact Bool.noConfusion hnotok
    | error e =>
      have hreg : register_template clsAttrs t = .error e := by
        simp only [register_template, hbc, Bind.bind, Except.bind]
      obtain ⟨s, hs⟩ := bindChildren_error_keyError _ _ _ hbc
      rw [hreg, hs]
      rfl
  · intro W getChild handlers r self inst ws hr hinit m cb hmem hm
    cases hloop : initWidgetsLoop getChild r.bound_widgets self with
    | error e =>
      simp only [init_template, hloop, Bind.bind, Except.bind] at hinit
      exact Except.noConfusion hinit
    | ok inst' =>
      have hws : ws = r.bound_methods.foldl
          (fun ws kv => if handlers.contains kv.1 then ws
            else ws ++ [Warning.missingHandler kv.1]) [] := by
        simp only [init_template, hloop, bindOk, pure, Except.pure,
          Except.ok.injEq, Prod.mk.injEq] at hinit
        exact hinit.2.symm
      rw [hws]
      exact missingFold_mem handlers r.bound_methods [] m cb hmem hm
  · intro W getChild handlers widgets methods self hkeys
    obtain ⟨inst, hinst⟩ := initWidgetsLoop_isOk getChild widgets self hkeys
    simp [init_template, hinst, bindOk, pure, Except.pure, Except.isOk,
      Except.toBool]

/-- Witness for C5: a handler missing from the class is warned about and
excluded; a bound method the builder never wired is warned about at
construction; `init_template` succeeds. -/
theorem c5_witness :
    (dcontains "on_test_notify" ([] : List (String × BoundCallback)) = false
      ∧ Warning.notFound "on_test_notify" ∈ [Warning.notFound "on_test_notify"])
    ∧ Warning.missingHandler "on_test_notify" ∈
        [Warning.missingHandler "on_test_notify"]
    ∧ (init_template (fun _ => (none : Option Nat)) []
        [(some "test_button", .child exButton)] [] []).isOk = true :=
  ⟨(c5_missing_handler_diagnostics [] exTemplate).1
      ⟨[], [(some "test_button",
        .child ⟨"GtkButton", some "test_button", some "test_button", none⟩)],
        [Warning.notFound "on_test_notify"]⟩
      (by rfl) (.signal exSignal) (by decide) (by rfl),
   (c5_missing_handler_diagnostics ["on_test_notify"] exTemplate).2.2.1
      (fun _ => (none : Option Nat)) []
      ⟨[("on_test_notify", .signal exSignal)],
        [(some "test_button",
          .child ⟨"GtkButton", some "test_button", some "test_button", none⟩)], []⟩
      [] [] [Warning.missingHandler "on_test_notify"]
      (by rfl) (by rfl) "on_test_notify" (.signal exSignal) (by decide) (by rfl),
   (c5_missing_handler_diagnostics [] exTemplate).2.2.2
      (fun _ => (none : Option Nat)) [] [(some "test_button", .child exButton)]
      [] [] (by decide)⟩
